import Mathlib

/-!
Verification of the slim image transformers of CNTK's ImageReader
(`Source/Readers/ImageReader/ImageSlimTransformers.cpp`).

The development shallowly embeds the crop / scale / mean-subtraction /
transpose transformers.  C++ `int` arithmetic is modelled by `Int` (no
value in this code comes near the 32-bit range), `double` crop ratios by
`ℚ`, and the standard-library pseudo-random distributions by explicit
draws from a stream of naturals.
-/

namespace CNTKSlim

/-- Model of a `std::mt19937` engine: an abstract stream of raw draws
together with a position.  The concrete bit-generation of the Mersenne
twister is a trusted external library; only the facts that successive
draws come from the engine state and that a distribution maps a raw draw
into its support are used. -/
structure RNG where
  stream : Nat → Nat
  pos : Nat

/-- One raw draw from the engine. -/
def RNG.next (r : RNG) : Nat × RNG :=
  (r.stream r.pos, ⟨r.stream, r.pos + 1⟩)

/-- Modelled from the spec: `UniIntT(lo, hi)` is
`std::uniform_int_distribution<int>` (the alias is declared in the
header `ImageSlimTransformers.h`, which is not part of the sources);
it consumes engine state and returns an integer uniform in `[lo, hi]`.
The model maps a raw draw into `[lo, hi]` by reduction modulo the width
of the interval. -/
def UniIntT (lo hi : Int) (r : RNG) : Int × RNG :=
  let (n, r') := r.next
  (lo + (n : Int) % (hi - lo + 1), r')

/-- Modelled from the spec: `UniRealT(lo, hi)` is
`std::uniform_real_distribution<double>` (alias declared in the header,
not part of the sources); it consumes engine state and returns a value
in `[lo, hi)`.  The model maps a raw draw `n` to
`lo + (hi - lo) * ((n % 1000) / 1000)`. -/
def UniRealT (lo hi : ℚ) (r : RNG) : ℚ × RNG :=
  let (n, r') := r.next
  (lo + (hi - lo) * (((n % 1000 : Nat) : ℚ) / 1000), r')

/-- Modelled from the spec: `std::bernoulli_distribution()` with default
parameter `0.5`, a fair coin draw from the engine. -/
def bernoulliDraw (r : RNG) : Bool × RNG :=
  let (n, r') := r.next
  (n % 2 == 1, r')

/-- `static_cast<int>` applied to a nonnegative-or-negative real value:
C++ float-to-int conversion truncates toward zero. -/
def cppIntTrunc (q : ℚ) : Int :=
  if 0 ≤ q then ⌊q⌋ else ⌈q⌉

/-- `SlimCropTransformer::CropType`. -/
inductive CropType
  | Center
  | Random
  | MultiView10
deriving DecidableEq, Repr

/-- `SlimCropTransformer::RatioJitterType`. -/
inductive RatioJitterType
  | None
  | UniRatio
  | UniLength
  | UniArea
deriving DecidableEq, Repr

/-- `cv::Rect(xOff, yOff, cropSize, cropSize)` as returned by
`SlimCropTransformer::GetCropRect`. -/
structure CvRect where
  x : Int
  y : Int
  width : Int
  height : Int
deriving DecidableEq, Repr

/-- `SlimCropTransformer::GetCropRect` (ImageSlimTransformers.cpp,
lines 207-271).  `crow`/`ccol` are the image's row and column counts,
`cropRatio` the selected ratio; the engine is threaded explicitly (it is
consumed only by the `Random` strategy). -/
def GetCropRect (type : CropType) (viewIndex : Nat) (crow ccol : Int)
    (cropRatio : ℚ) (rng : RNG) : CvRect × RNG :=
  let cropSize : Int := cppIntTrunc (((min crow ccol : Int) : ℚ) * cropRatio)
  match type with
  | CropType.Center =>
      (⟨(ccol - cropSize) / 2, (crow - cropSize) / 2, cropSize, cropSize⟩, rng)
  | CropType.Random =>
      let (xOff, rng) := UniIntT 0 (ccol - cropSize) rng
      let (yOff, rng) := UniIntT 0 (crow - cropSize) rng
      (⟨xOff, yOff, cropSize, cropSize⟩, rng)
  | CropType.MultiView10 =>
      -- 0 - 4: 4 corners + center crop. 5 - 9: same, but with a flip.
      let isubView := viewIndex % 5
      let offs : Int × Int :=
        match isubView with
        | 0 => (0, 0)
        | 1 => (ccol - cropSize, 0)
        | 2 => (0, crow - cropSize)
        | 3 => (ccol - cropSize, crow - cropSize)
        | 4 => ((ccol - cropSize) / 2, (crow - cropSize) / 2)
        | _ => (-1, -1)
      (⟨offs.1, offs.2, cropSize, cropSize⟩, rng)

/-- Case-insensitive string comparison (`AreEqualIgnoreCase` from
`StringUtil.h`, a trusted helper). -/
def AreEqualIgnoreCase (a b : String) : Bool :=
  a.toLower == b.toLower

/-- `SlimCropTransformer::ParseCropType` (lines 162-180). -/
def ParseCropType (src : String) : Except String CropType :=
  if src.isEmpty || AreEqualIgnoreCase src "center" then
    Except.ok CropType.Center
  else if AreEqualIgnoreCase src "random" then
    Except.ok CropType.Random
  else if AreEqualIgnoreCase src "multiview10" then
    Except.ok CropType.MultiView10
  else
    Except.error ("Invalid crop type: " ++ src ++ ".")

/-- `SlimCropTransformer::ParseJitterType` (lines 182-205). -/
def ParseJitterType (src : String) : Except String RatioJitterType :=
  if src.isEmpty || AreEqualIgnoreCase src "none" then
    Except.ok RatioJitterType.None
  else if AreEqualIgnoreCase src "uniratio" then
    Except.ok RatioJitterType.UniRatio
  else if AreEqualIgnoreCase src "unilength" then
    Except.ok RatioJitterType.UniLength
  else if AreEqualIgnoreCase src "uniarea" then
    Except.ok RatioJitterType.UniArea
  else
    Except.error ("Invalid jitter type: " ++ src ++ ".")

/-- The raw configuration values the crop constructor reads
(`cropType`, the two entries of the `cropRatio` float vector,
`jitterType`, and the tri-state `hflip` flag). -/
structure RawCropConfig where
  cropType : String
  cropRatioMin : ℚ
  cropRatioMax : ℚ
  jitterType : String
  hflip : Option Bool

/-- The constructed transformer state (`m_cropType`, `m_cropRatioMin`,
`m_cropRatioMax`, `m_jitterType`, `m_hFlip`). -/
structure CropConfig where
  cropType : CropType
  cropRatioMin : ℚ
  cropRatioMax : ℚ
  jitterType : RatioJitterType
  hFlip : Bool
deriving DecidableEq, Repr

namespace SlimCropTransformer

/-- `SlimCropTransformer::SlimCropTransformer` (lines 92-118):
parse the crop type, validate the ratio bounds, parse the jitter type,
default `hflip` from the crop strategy when absent.  A `RuntimeError`
is an `Except.error`. -/
def construct (c : RawCropConfig) : Except String CropConfig :=
  match ParseCropType c.cropType with
  | Except.error e => Except.error e
  | Except.ok ct =>
    if ¬(0 < c.cropRatioMin ∧ c.cropRatioMin ≤ 1) ∨
       ¬(0 < c.cropRatioMax ∧ c.cropRatioMax ≤ 1) ∨
       c.cropRatioMin > c.cropRatioMax then
      Except.error "Invalid cropRatio value, must be > 0 and <= 1. cropMin must <= cropMax"
    else
      match ParseJitterType c.jitterType with
      | Except.error e => Except.error e
      | Except.ok jt =>
        let hf : Bool :=
          match c.hflip with
          | Option.none => decide (ct = CropType.Random)
          | Option.some b => b
        Except.ok ⟨ct, c.cropRatioMin, c.cropRatioMax, jt, hf⟩

/-- `SlimCropTransformer::Apply` (lines 120-160).  The borrowed engine is
passed in and returned; the result records the selected crop rectangle
and whether the sample is flipped horizontally (`cv::flip` itself is a
trusted library call).  The `default` branch of the jitter switch raises
`RuntimeError("Jitter type currently not implemented.")`. -/
def Apply (cfg : CropConfig) (id : Nat) (crow ccol : Int) (rng : RNG) :
    Except String (CvRect × Bool × RNG) :=
  match cfg.jitterType with
  | RatioJitterType.UniLength => Except.error "Jitter type currently not implemented."
  | RatioJitterType.UniArea => Except.error "Jitter type currently not implemented."
  | RatioJitterType.None =>
      Apply.rest cfg id crow ccol cfg.cropRatioMin rng
  | RatioJitterType.UniRatio =>
      if cfg.cropRatioMin = cfg.cropRatioMax then
        Apply.rest cfg id crow ccol cfg.cropRatioMin rng
      else
        let (ratio, rng) := UniRealT cfg.cropRatioMin cfg.cropRatioMax rng
        Apply.rest cfg id crow ccol ratio rng
where
  /-- The part of `Apply` after the ratio has been selected: view-index
  computation, crop, and the flip decision
  `(m_hFlip && bernoulli(*rng)) || viewIndex >= 5` (left-to-right with
  C++ short-circuit evaluation, so the coin is drawn only when `m_hFlip`
  is set). -/
  rest (cfg : CropConfig) (id : Nat) (crow ccol : Int) (ratio : ℚ) (rng : RNG) :
      Except String (CvRect × Bool × RNG) :=
    let viewIndex : Nat := if cfg.cropType = CropType.MultiView10 then id % 10 else 0
    let (rect, rng) := GetCropRect cfg.cropType viewIndex crow ccol ratio rng
    let (coin, rng) := if cfg.hFlip then bernoulliDraw rng else (false, rng)
    let flipped : Bool := coin || decide (viewIndex ≥ 5)
    Except.ok (rect, flipped, rng)

end SlimCropTransformer

/-- A fixed concrete engine used for the deterministic examples. -/
def rngZero : RNG := ⟨fun _ => 0, 0⟩

/-- `StorageType` of a stream (only the dense/sparse distinction is
consumed here). -/
inductive StorageType
  | dense
  | sparse
deriving DecidableEq, Repr

/-- `ElementType` of a stream.  `tuchar` stands for any element type
other than the two supported floating widths. -/
inductive ElementType
  | tfloat
  | tdouble
  | tuchar
deriving DecidableEq, Repr

/-- `ImageLayoutKind`: interleaved (`HWC`) versus planar (`CHW`). -/
inductive ImageLayoutKind
  | HWC
  | CHW
deriving DecidableEq, Repr

/-- `StreamDescription`: the storage kind, element type and sample
layout (width × height × channels in a named layout) consumed by shape
negotiation. -/
structure StreamDescription where
  storageType : StorageType
  elementType : ElementType
  width : Nat
  height : Nat
  channels : Nat
  layout : ImageLayoutKind
deriving DecidableEq, Repr

namespace SlimImageTransformerBase

/-- `SlimImageTransformerBase::Transform(const StreamDescription&)`
(lines 33-57): reject non-dense storage (`LogicError`), resolve the
element type to an OpenCV depth (`RuntimeError("Unsupported type")` for
anything but `tdouble`/`tfloat`), and return the output stream, which
equals the input stream. -/
def Transform (s : StreamDescription) : Except String StreamDescription :=
  if s.storageType ≠ StorageType.dense then
    Except.error "ImageTransformerBase supports only dense input streams."
  else
    match s.elementType with
    | ElementType.tdouble => Except.ok s
    | ElementType.tfloat => Except.ok s
    | _ => Except.error "Unsupported type"

end SlimImageTransformerBase

/-- The shape-relevant state of a `cv::Mat`: row/column/channel counts
and element depth (`CV_32F`/`CV_64F` codes). -/
structure CvMatShape where
  rows : Nat
  cols : Nat
  channels : Nat
  depth : Nat
deriving DecidableEq, Repr

/-- `cv::Mat::convertTo(mat, depth)`: converts the element depth and
keeps row, column and channel counts (trusted library fact). -/
def convertTo (m : CvMatShape) (d : Nat) : CvMatShape :=
  { m with depth := d }

/-- `cv::resize(mat, mat, cv::Size(width, height), ...)`: the output has
`cols = width`, `rows = height`, and the input's type, hence its channel
count and depth (trusted library fact). -/
def cvResize (m : CvMatShape) (width height : Nat) : CvMatShape :=
  { m with rows := height, cols := width }

/-- `ImageDimensions(buffer.cols, buffer.rows, buffer.channels())` as
built by `SlimImageTransformerBase::Transform(SequenceDataPtr)` at line
85: the declared output shape (width, height, channels) of a produced
buffer. -/
def outputShapeOf (m : CvMatShape) : Nat × Nat × Nat :=
  (m.cols, m.rows, m.channels)

/-- The configuration of `SlimScaleTransformer`: target `m_imgWidth`,
`m_imgHeight`, `m_imgChannels`, the resolved element depth
`m_imageElementType`, and the number of configured interpolation
kernels (`m_interp.size()`, at least 1 after construction). -/
structure ScaleConfig where
  imgWidth : Nat
  imgHeight : Nat
  imgChannels : Nat
  imageElementType : Nat
  interpCount : Nat
deriving DecidableEq, Repr

namespace SlimScaleTransformer

/-- `SlimScaleTransformer::Apply` (lines 306-333): convert the element
depth if the matrix type differs from
`CV_MAKETYPE(m_imageElementType, m_imgChannels)` (two `cv::Mat` types
are equal exactly when depth and channel count both agree), draw an
interpolation index, and resize to the configured target size. -/
def Apply (cfg : ScaleConfig) (mat : CvMatShape) (rng : RNG) : CvMatShape × RNG :=
  let mat :=
    if ¬(mat.depth = cfg.imageElementType ∧ mat.channels = cfg.imgChannels) then
      convertTo mat cfg.imageElementType
    else
      mat
  let (_, rng) := UniIntT 0 ((cfg.interpCount : Int) - 1) rng
  (cvResize mat cfg.imgWidth cfg.imgHeight, rng)

end SlimScaleTransformer

/-- A dense matrix with its element data, as consumed by the
mean-subtraction transform: row/column/channel counts and the flat
element list. -/
structure CvMatData where
  rows : Nat
  cols : Nat
  channels : Nat
  data : List ℚ
deriving DecidableEq, Repr

/-- `cv::Mat` subtraction `a - b` (trusted library): element-wise
subtraction when the two operands have equal sizes and types, a thrown
`cv::Exception` otherwise. -/
def cvSub (a b : CvMatData) : Except String CvMatData :=
  if a.rows = b.rows ∧ a.cols = b.cols ∧ a.channels = b.channels then
    Except.ok { a with data := List.zipWith (· - ·) a.data b.data }
  else
    Except.error "cv::Exception: operand size or type mismatch"

namespace SlimMeanTransformer

/-- `SlimMeanTransformer::Apply` (lines 365-377): when the mean image's
`cv::Size` (column and row counts) equals the sample's, assign
`mat = mat - m_meanImg`; otherwise leave the sample untouched.  An
absent mean image is the empty matrix with `rows = cols = 0`. -/
def Apply (meanImg mat : CvMatData) : Except String CvMatData :=
  if meanImg.cols = mat.cols ∧ meanImg.rows = mat.rows then
    cvSub mat meanImg
  else
    Except.ok mat

end SlimMeanTransformer

namespace SlimTransposeTransformer

/-- `SlimTransposeTransformer::Transform(const StreamDescription&)`
(lines 383-399): declare the output layout as `CHW` and reject
non-dense storage.  Note that the element type is not examined here. -/
def Transform (s : StreamDescription) : Except String StreamDescription :=
  let out := { s with layout := ImageLayoutKind.CHW }
  if s.storageType ≠ StorageType.dense then
    Except.error "Transpose transformer supports only dense streams."
  else
    Except.ok out

/-- `SlimTransposeTransformer::TypedApply<TElemType>` (lines 425-455).
The C++ loop writes, for every `irow < rowCount` and
`icol < channelCount`,
`dst[icol * rowCount + irow] = src[irow * channelCount + icol]`;
each destination index `j < channelCount * rowCount` is written exactly
once, namely with `icol = j / rowCount` and `irow = j % rowCount`, so
the filled buffer is the following map. -/
def TypedApply (α : Type) [Inhabited α] (rowCount channelCount : Nat)
    (src : List α) : List α :=
  (List.range (channelCount * rowCount)).map fun j =>
    src.getD ((j % rowCount) * channelCount + j / rowCount) default

/-- The inverse index map, planar back to interleaved (the spec's
"inverse mapping"; it is not part of the source): the element at
interleaved offset `t = p * channelCount + c` is read from planar
offset `c * rowCount + p`. -/
def planarToInterleaved (α : Type) [Inhabited α] (rowCount channelCount : Nat)
    (src : List α) : List α :=
  (List.range (rowCount * channelCount)).map fun t =>
    src.getD ((t % channelCount) * rowCount + t / channelCount) default

/-- `SlimTransposeTransformer::Transform(SequenceDataPtr)`
(lines 402-415): dispatch on the input stream's element type,
rejecting anything but the two floating widths with
`RuntimeError("Unsupported type")`.  The data list stands for the
sample's element buffer; `rowCount = height * width` and
`channelCount = channels` as read from the input sample layout. -/
def TransformSeq (s : StreamDescription) (data : List ℚ) :
    Except String (List ℚ) :=
  match s.elementType with
  | ElementType.tdouble => Except.ok (TypedApply ℚ (s.height * s.width) s.channels data)
  | ElementType.tfloat => Except.ok (TypedApply ℚ (s.height * s.width) s.channels data)
  | _ => Except.error "Unsupported type"

end SlimTransposeTransformer

/-- The spec's crop-size formula `floor(min(rows, cols) * ratio)`. -/
def specCropSize (crow ccol : Int) (ratio : ℚ) : Int :=
  ⌊((min crow ccol : Int) : ℚ) * ratio⌋

/-- The spec's crop-rectangle invariant for a square of size `sz` inside
a `crow × ccol` image. -/
def CropRectWithinBounds (rect : CvRect) (crow ccol sz : Int) : Prop :=
  rect.width = sz ∧ rect.height = sz ∧
  0 ≤ rect.x ∧ 0 ≤ rect.y ∧ rect.x + sz ≤ ccol ∧ rect.y + sz ≤ crow

lemma cppIntTrunc_eq_floor {q : ℚ} (h : 0 ≤ q) : cppIntTrunc q = ⌊q⌋ :=
  if_pos h

lemma specCropSize_nonneg {crow ccol : Int} {ratio : ℚ}
    (hr : 0 < crow) (hc : 0 < ccol) (h0 : 0 < ratio) :
    0 ≤ specCropSize crow ccol ratio := by
  have hminpos : (0 : Int) < min crow ccol := lt_min hr hc
  exact Int.floor_nonneg.mpr
    (mul_nonneg (by exact_mod_cast hminpos.le) h0.le)

lemma specCropSize_le_min {crow ccol : Int} {ratio : ℚ}
    (hr : 0 < crow) (hc : 0 < ccol) (h1 : ratio ≤ 1) :
    specCropSize crow ccol ratio ≤ min crow ccol := by
  have hminpos : (0 : Int) < min crow ccol := lt_min hr hc
  have hle : ((min crow ccol : Int) : ℚ) * ratio ≤ ((min crow ccol : Int) : ℚ) :=
    mul_le_of_le_one_right (by exact_mod_cast hminpos.le) h1
  calc specCropSize crow ccol ratio ≤ ⌊((min crow ccol : Int) : ℚ)⌋ := Int.floor_mono hle
    _ = min crow ccol := Int.floor_intCast _

lemma cropSize_eq_spec {crow ccol : Int} {ratio : ℚ}
    (hr : 0 < crow) (hc : 0 < ccol) (h0 : 0 < ratio) :
    cppIntTrunc (((min crow ccol : Int) : ℚ) * ratio) = specCropSize crow ccol ratio := by
  have hminpos : (0 : Int) < min crow ccol := lt_min hr hc
  exact cppIntTrunc_eq_floor (mul_nonneg (by exact_mod_cast hminpos.le) h0.le)

/-- C1: for every crop strategy, view index, image with positive row and
column counts, and ratio in `(0, 1]`, the rectangle computed by
`GetCropRect` lies within the image bounds and has side
`floor(min(rows, cols) * ratio)`. -/
theorem crop_rect_within_bounds (type : CropType) (viewIndex : Nat)
    (crow ccol : Int) (ratio : ℚ) (rng : RNG)
    (hr : 0 < crow) (hc : 0 < ccol) (h0 : 0 < ratio) (h1 : ratio ≤ 1) :
    CropRectWithinBounds (GetCropRect type viewIndex crow ccol ratio rng).1
      crow ccol (specCropSize crow ccol ratio) := by
  have hsz0 : 0 ≤ specCropSize crow ccol ratio := specCropSize_nonneg hr hc h0
  have hszmin : specCropSize crow ccol ratio ≤ min crow ccol :=
    specCropSize_le_min hr hc h1
  have hszc : specCropSize crow ccol ratio ≤ ccol :=
    le_trans hszmin (min_le_right _ _)
  have hszr : specCropSize crow ccol ratio ≤ crow :=
    le_trans hszmin (min_le_left _ _)
  cases type with
  | Center =>
      simp only [GetCropRect, cropSize_eq_spec hr hc h0, CropRectWithinBounds]
      refine ⟨by trivial, by trivial, ?_, ?_, ?_, ?_⟩ <;> omega
  | Random =>
      have hmodc : (0 : Int) < ccol - specCropSize crow ccol ratio - 0 + 1 := by omega
      have hmodr : (0 : Int) < crow - specCropSize crow ccol ratio - 0 + 1 := by omega
      have hx0 := Int.emod_nonneg ((rng.stream rng.pos : Int)) (ne_of_gt hmodc)
      have hx1 := Int.emod_lt_of_pos ((rng.stream rng.pos : Int)) hmodc
      have hy0 := Int.emod_nonneg ((rng.stream (rng.pos + 1) : Int)) (ne_of_gt hmodr)
      have hy1 := Int.emod_lt_of_pos ((rng.stream (rng.pos + 1) : Int)) hmodr
      simp only [GetCropRect, cropSize_eq_spec hr hc h0, UniIntT, RNG.next,
        CropRectWithinBounds]
      refine ⟨by trivial, by trivial, ?_, ?_, ?_, ?_⟩ <;> omega
  | MultiView10 =>
      simp only [GetCropRect, cropSize_eq_spec hr hc h0, CropRectWithinBounds]
      have h5 : viewIndex % 5 < 5 := Nat.mod_lt _ (by omega)
      set k := viewIndex % 5 with hk
      interval_cases k <;>
        refine ⟨by trivial, by trivial, ?_, ?_, ?_, ?_⟩ <;> dsimp only <;> omega

/-- Witness for C1 at `Random`, `crow = 3`, `ccol = 2`, `ratio = 1`. -/
theorem crop_rect_within_bounds_witness :
    CropRectWithinBounds (GetCropRect CropType.Random 0 3 2 1 rngZero).1
      3 2 (specCropSize 3 2 1) :=
  crop_rect_within_bounds CropType.Random 0 3 2 1 rngZero
    (by decide) (by decide) zero_lt_one (le_refl 1)

/-- C2 (counterexample): in `MultiView10` mode with `UniRatio` jitter
and distinct ratio bounds, two calls of `Apply` with the same sample id
and the same `100 × 100` input can return different crop rectangles,
because the randomly jittered ratio changes the crop size and hence the
corner offsets; and with `hflip` enabled, two calls with the same id can
return different flip decisions, because the coin draw consumes engine
state even in `MultiView10` mode. -/
theorem multiview_determinism_counterexample :
    ((SlimCropTransformer.Apply
        ⟨CropType.MultiView10, 1/2, 1, RatioJitterType.UniRatio, false⟩
        1 100 100 rngZero).map fun t => (t.1, t.2.1)) =
      Except.ok (⟨50, 0, 50, 50⟩, false) ∧
    ((SlimCropTransformer.Apply
        ⟨CropType.MultiView10, 1/2, 1, RatioJitterType.UniRatio, false⟩
        1 100 100 ⟨fun _ => 500, 0⟩).map fun t => (t.1, t.2.1)) =
      Except.ok (⟨25, 0, 75, 75⟩, false) ∧
    (⟨50, 0, 50, 50⟩ : CvRect) ≠ ⟨25, 0, 75, 75⟩ ∧
    ((SlimCropTransformer.Apply
        ⟨CropType.MultiView10, 1, 1, RatioJitterType.None, true⟩
        1 100 100 rngZero).map fun t => t.2.1) = Except.ok false ∧
    ((SlimCropTransformer.Apply
        ⟨CropType.MultiView10, 1, 1, RatioJitterType.None, true⟩
        1 100 100 ⟨fun _ => 1, 0⟩).map fun t => t.2.1) = Except.ok true := by
  refine ⟨?_, ?_, by decide, ?_, ?_⟩ <;>
    norm_num [SlimCropTransformer.Apply, SlimCropTransformer.Apply.rest,
      UniRealT, RNG.next, GetCropRect, cppIntTrunc, rngZero, Except.map,
      bernoulliDraw]

/-- C2 (amended): in `MultiView10` mode, when the jitter ratio is
deterministic (`None`, or `UniRatio` with equal bounds) and `hflip` is
disabled, `Apply` returns the same crop rectangle and flip decision for
any two engine states; the flip decision is exactly `id % 10 ≥ 5`, and
the result depends on the sample id only through `id % 10`. -/
theorem multiview_deterministic_when_ratio_fixed (cfg : CropConfig) (id : Nat)
    (crow ccol : Int) (rng rng' : RNG)
    (hmv : cfg.cropType = CropType.MultiView10) (hf : cfg.hFlip = false)
    (hj : cfg.jitterType = RatioJitterType.None ∨
          (cfg.jitterType = RatioJitterType.UniRatio ∧
           cfg.cropRatioMin = cfg.cropRatioMax)) :
    ((SlimCropTransformer.Apply cfg id crow ccol rng).map fun t => (t.1, t.2.1)) =
      ((SlimCropTransformer.Apply cfg id crow ccol rng').map fun t => (t.1, t.2.1)) ∧
    ((SlimCropTransformer.Apply cfg id crow ccol rng).map fun t => t.2.1) =
      Except.ok (decide (id % 10 ≥ 5)) ∧
    ((SlimCropTransformer.Apply cfg id crow ccol rng).map fun t => (t.1, t.2.1)) =
      ((SlimCropTransformer.Apply cfg (id % 10) crow ccol rng).map fun t => (t.1, t.2.1)) := by
  have hmod : id % 10 % 10 = id % 10 := Nat.mod_mod_of_dvd id dvd_rfl
  rcases hj with hj | ⟨hj, hrat⟩
  · simp [SlimCropTransformer.Apply, SlimCropTransformer.Apply.rest, hj, hmv, hf,
      GetCropRect, hmod, Except.map]
  · simp [SlimCropTransformer.Apply, SlimCropTransformer.Apply.rest, hj, hrat, hmv,
      hf, GetCropRect, hmod, Except.map]

/-- Witness for the amended C2 at a concrete configuration, id `7`,
a `4 × 4` image and two distinct engines. -/
theorem multiview_deterministic_when_ratio_fixed_witness :
    ((SlimCropTransformer.Apply ⟨CropType.MultiView10, 1, 1, RatioJitterType.None, false⟩
        7 4 4 rngZero).map fun t => (t.1, t.2.1)) =
      ((SlimCropTransformer.Apply ⟨CropType.MultiView10, 1, 1, RatioJitterType.None, false⟩
        7 4 4 ⟨fun _ => 3, 0⟩).map fun t => (t.1, t.2.1)) ∧
    ((SlimCropTransformer.Apply ⟨CropType.MultiView10, 1, 1, RatioJitterType.None, false⟩
        7 4 4 rngZero).map fun t => t.2.1) = Except.ok (decide (7 % 10 ≥ 5)) ∧
    ((SlimCropTransformer.Apply ⟨CropType.MultiView10, 1, 1, RatioJitterType.None, false⟩
        7 4 4 rngZero).map fun t => (t.1, t.2.1)) =
      ((SlimCropTransformer.Apply ⟨CropType.MultiView10, 1, 1, RatioJitterType.None, false⟩
        (7 % 10) 4 4 rngZero).map fun t => (t.1, t.2.1)) :=
  multiview_deterministic_when_ratio_fixed
    ⟨CropType.MultiView10, 1, 1, RatioJitterType.None, false⟩ 7 4 4 rngZero
    ⟨fun _ => 3, 0⟩ rfl rfl (Or.inl rfl)

/-- C3: mean subtraction leaves the buffer unchanged, without error,
whenever the stored mean image's pixel dimensions differ from the
sample's, and performs exact element-wise subtraction only when both
the pixel dimensions and the channel counts match: when they both
match it subtracts, and when the pixel dimensions match but the
channel counts differ, no subtraction is performed — the trusted
`cv::Mat` subtraction throws instead of producing a buffer. -/
theorem mean_subtraction_noop_or_exact (meanImg mat : CvMatData) :
    ((meanImg.cols ≠ mat.cols ∨ meanImg.rows ≠ mat.rows) →
      SlimMeanTransformer.Apply meanImg mat = Except.ok mat) ∧
    (meanImg.cols = mat.cols → meanImg.rows = mat.rows →
      meanImg.channels = mat.channels →
      SlimMeanTransformer.Apply meanImg mat =
        Except.ok { mat with data := List.zipWith (· - ·) mat.data meanImg.data }) ∧
    (meanImg.cols = mat.cols → meanImg.rows = mat.rows →
      meanImg.channels ≠ mat.channels →
      SlimMeanTransformer.Apply meanImg mat =
        Except.error "cv::Exception: operand size or type mismatch") := by
  refine ⟨?_, ?_, ?_⟩
  · rintro (h | h) <;> simp [SlimMeanTransformer.Apply, h]
  · intro h1 h2 h3
    simp [SlimMeanTransformer.Apply, cvSub, h1, h2, h3]
  · intro h1 h2 h3
    simp [SlimMeanTransformer.Apply, cvSub, h1, h2, Ne.symm h3]

/-- Witness for C3: a dimension mismatch is skipped, a full match is
subtracted element-wise, and an equal pixel size with a differing
channel count does not subtract (the library subtraction throws). -/
theorem mean_subtraction_noop_or_exact_witness :
    SlimMeanTransformer.Apply ⟨1, 1, 1, [5]⟩ ⟨2, 1, 1, [3, 4]⟩ =
      Except.ok ⟨2, 1, 1, [3, 4]⟩ ∧
    SlimMeanTransformer.Apply ⟨1, 2, 1, [5, 1]⟩ ⟨1, 2, 1, [3, 4]⟩ =
      Except.ok ⟨1, 2, 1, List.zipWith (· - ·) [3, 4] [5, 1]⟩ ∧
    SlimMeanTransformer.Apply ⟨1, 2, 3, [1, 2, 3, 4, 5, 6]⟩ ⟨1, 2, 1, [7, 8]⟩ =
      Except.error "cv::Exception: operand size or type mismatch" :=
  ⟨(mean_subtraction_noop_or_exact ⟨1, 1, 1, [5]⟩ ⟨2, 1, 1, [3, 4]⟩).1
      (Or.inr (by decide)),
   (mean_subtraction_noop_or_exact ⟨1, 2, 1, [5, 1]⟩ ⟨1, 2, 1, [3, 4]⟩).2.1 rfl rfl rfl,
   (mean_subtraction_noop_or_exact ⟨1, 2, 3, [1, 2, 3, 4, 5, 6]⟩ ⟨1, 2, 1, [7, 8]⟩).2.2
      rfl rfl (by decide)⟩

/-- C4 (counterexample): the transpose transformer's shape negotiation
accepts a dense stream with an unsupported element width instead of
failing: the unsupported width is only rejected later, at the first
per-sample call. -/
theorem negotiation_unsupported_width_counterexample :
    SlimTransposeTransformer.Transform
        ⟨StorageType.dense, ElementType.tuchar, 2, 2, 1, ImageLayoutKind.HWC⟩ =
      Except.ok ⟨StorageType.dense, ElementType.tuchar, 2, 2, 1, ImageLayoutKind.CHW⟩ ∧
    ∀ e, Except.ok ⟨StorageType.dense, ElementType.tuchar, 2, 2, 1, ImageLayoutKind.CHW⟩ ≠
      (Except.error e : Except String StreamDescription) := by
  exact ⟨rfl, fun e h => by cases h⟩

/-- C4 (amended): the base transformer's negotiation rejects non-dense
storage and unsupported element widths; the transpose transformer's
negotiation rejects only non-dense storage — a dense stream passes
negotiation regardless of element width, and an unsupported element
width is rejected at the first per-sample transform call instead. -/
theorem negotiation_validation (s : StreamDescription) :
    (s.storageType ≠ StorageType.dense →
      SlimImageTransformerBase.Transform s =
        Except.error "ImageTransformerBase supports only dense input streams.") ∧
    (s.storageType = StorageType.dense →
      s.elementType ≠ ElementType.tfloat → s.elementType ≠ ElementType.tdouble →
      SlimImageTransformerBase.Transform s = Except.error "Unsupported type") ∧
    (s.storageType ≠ StorageType.dense →
      SlimTransposeTransformer.Transform s =
        Except.error "Transpose transformer supports only dense streams.") ∧
    (s.storageType = StorageType.dense →
      SlimTransposeTransformer.Transform s =
        Except.ok { s with layout := ImageLayoutKind.CHW }) ∧
    (∀ data, s.elementType ≠ ElementType.tfloat → s.elementType ≠ ElementType.tdouble →
      SlimTransposeTransformer.TransformSeq s data = Except.error "Unsupported type") := by
  refine ⟨?_, ?_, ?_, ?_, ?_⟩
  · intro h; simp [SlimImageTransformerBase.Transform, h]
  · intro h hf hd
    cases het : s.elementType <;>
      simp_all [SlimImageTransformerBase.Transform]
  · intro h; simp [SlimTransposeTransformer.Transform, h]
  · intro h; simp [SlimTransposeTransformer.Transform, h]
  · intro data hf hd
    cases het : s.elementType <;>
      simp_all [SlimTransposeTransformer.TransformSeq]

/-- Witness for the amended C4 at concrete stream descriptors. -/
theorem negotiation_validation_witness :
    SlimImageTransformerBase.Transform
        ⟨StorageType.sparse, ElementType.tfloat, 2, 2, 1, ImageLayoutKind.HWC⟩ =
      Except.error "ImageTransformerBase supports only dense input streams." ∧
    SlimImageTransformerBase.Transform
        ⟨StorageType.dense, ElementType.tuchar, 2, 2, 1, ImageLayoutKind.HWC⟩ =
      Except.error "Unsupported type" ∧
    SlimTransposeTransformer.Transform
        ⟨StorageType.sparse, ElementType.tfloat, 2, 2, 1, ImageLayoutKind.HWC⟩ =
      Except.error "Transpose transformer supports only dense streams." ∧
    SlimTransposeTransformer.Transform
        ⟨StorageType.dense, ElementType.tfloat, 2, 2, 1, ImageLayoutKind.HWC⟩ =
      Except.ok ⟨StorageType.dense, ElementType.tfloat, 2, 2, 1, ImageLayoutKind.CHW⟩ ∧
    SlimTransposeTransformer.TransformSeq
        ⟨StorageType.dense, ElementType.tuchar, 2, 2, 1, ImageLayoutKind.HWC⟩ [] =
      Except.error "Unsupported type" :=
  ⟨(negotiation_validation _).1 (by decide),
   (negotiation_validation _).2.1 rfl (by decide) (by decide),
   (negotiation_validation _).2.2.1 (by decide),
   (negotiation_validation _).2.2.2.1 rfl,
   (negotiation_validation _).2.2.2.2 [] (by decide) (by decide)⟩

/-- C6 (counterexample): the scale transform does not force the
configured channel count: a single-channel input resized under a
3-channel configuration keeps its single channel, because
`convertTo` changes only the element depth. -/
theorem scale_output_shape_counterexample :
    outputShapeOf (SlimScaleTransformer.Apply ⟨10, 8, 3, 5, 1⟩ ⟨2, 2, 1, 5⟩ rngZero).1 =
      (10, 8, 1) ∧
    ((10, 8, 1) : Nat × Nat × Nat) ≠ (10, 8, 3) := ⟨rfl, by decide⟩

/-- C6 (amended): the scale transform always outputs the configured
target width and height, but the channel count of the output equals the
input's channel count; the full configured `width × height × channels`
shape is produced exactly when the input channel count already matches
the configured one. -/
theorem scale_output_shape (cfg : ScaleConfig) (mat : CvMatShape) (rng : RNG) :
    (SlimScaleTransformer.Apply cfg mat rng).1.cols = cfg.imgWidth ∧
    (SlimScaleTransformer.Apply cfg mat rng).1.rows = cfg.imgHeight ∧
    (SlimScaleTransformer.Apply cfg mat rng).1.channels = mat.channels ∧
    (mat.channels = cfg.imgChannels →
      outputShapeOf (SlimScaleTransformer.Apply cfg mat rng).1 =
        (cfg.imgWidth, cfg.imgHeight, cfg.imgChannels)) := by
  refine ⟨?_, ?_, ?_, ?_⟩ <;>
    simp only [SlimScaleTransformer.Apply, cvResize, convertTo, outputShapeOf] <;>
    split <;> simp_all

/-- Witness for the amended C6 at a matching channel count. -/
theorem scale_output_shape_witness :
    (SlimScaleTransformer.Apply ⟨10, 8, 3, 5, 1⟩ ⟨2, 2, 3, 5⟩ rngZero).1.cols = 10 ∧
    (SlimScaleTransformer.Apply ⟨10, 8, 3, 5, 1⟩ ⟨2, 2, 3, 5⟩ rngZero).1.rows = 8 ∧
    (SlimScaleTransformer.Apply ⟨10, 8, 3, 5, 1⟩ ⟨2, 2, 3, 5⟩ rngZero).1.channels = 3 ∧
    outputShapeOf (SlimScaleTransformer.Apply ⟨10, 8, 3, 5, 1⟩ ⟨2, 2, 3, 5⟩ rngZero).1 =
      (10, 8, 3) :=
  ⟨(scale_output_shape ⟨10, 8, 3, 5, 1⟩ ⟨2, 2, 3, 5⟩ rngZero).1,
   (scale_output_shape ⟨10, 8, 3, 5, 1⟩ ⟨2, 2, 3, 5⟩ rngZero).2.1,
   (scale_output_shape ⟨10, 8, 3, 5, 1⟩ ⟨2, 2, 3, 5⟩ rngZero).2.2.1,
   (scale_output_shape ⟨10, 8, 3, 5, 1⟩ ⟨2, 2, 3, 5⟩ rngZero).2.2.2 rfl⟩

lemma rangeMap_getD {α : Type} [Inhabited α] (n : Nat) (f : Nat → α) (i : Nat)
    (hi : i < n) : ((List.range n).map f).getD i default = f i := by
  rw [List.getD_eq_getElem?_getD, List.getElem?_map, List.getElem?_range hi]
  rfl

lemma encode_mod_div {R p c : Nat} (hp : p < R) :
    (c * R + p) % R = p ∧ (c * R + p) / R = c := by
  have hR : 0 < R := by omega
  rw [Nat.mul_comm c R]
  constructor
  · rw [Nat.mul_add_mod, Nat.mod_eq_of_lt hp]
  · rw [Nat.mul_add_div hR, Nat.div_eq_of_lt hp, Nat.add_zero]

/-- C5: the transpose copies the element at interleaved offset
`p * channelCount + c` to planar offset `c * rowCount + p` (with
`rowCount` the number of spatial positions `rows * cols`), and the
inverse planar-to-interleaved map recovers the original buffer exactly,
for any row/channel combination. -/
theorem transpose_mapping_and_roundtrip (α : Type) [Inhabited α]
    (rowCount channelCount : Nat) (src : List α)
    (hlen : src.length = rowCount * channelCount) :
    (∀ p c, p < rowCount → c < channelCount →
      (SlimTransposeTransformer.TypedApply α rowCount channelCount src).getD
          (c * rowCount + p) default =
        src.getD (p * channelCount + c) default) ∧
    SlimTransposeTransformer.planarToInterleaved α rowCount channelCount
      (SlimTransposeTransformer.TypedApply α rowCount channelCount src) = src := by
  constructor
  · intro p c hp hc
    have hidx : c * rowCount + p < channelCount * rowCount := by
      calc c * rowCount + p < c * rowCount + rowCount := by omega
        _ = (c + 1) * rowCount := by ring
        _ ≤ channelCount * rowCount := Nat.mul_le_mul_right _ (by omega)
    rw [SlimTransposeTransformer.TypedApply, rangeMap_getD _ _ _ hidx,
      (encode_mod_div hp).1, (encode_mod_div hp).2]
  · apply List.ext_getElem
    · simp [SlimTransposeTransformer.planarToInterleaved, hlen]
    · intro i h1 h2
      have hi : i < rowCount * channelCount := by
        simpa [SlimTransposeTransformer.planarToInterleaved] using h1
      have hC : 0 < channelCount := by
        rcases Nat.eq_zero_or_pos channelCount with h | h
        · subst h; simp at hi
        · exact h
      have hdivR : i / channelCount < rowCount :=
        (Nat.div_lt_iff_lt_mul hC).mpr hi
      have hmodC : i % channelCount < channelCount := Nat.mod_lt _ hC
      have hidx : (i % channelCount) * rowCount + i / channelCount <
          channelCount * rowCount := by
        calc (i % channelCount) * rowCount + i / channelCount
            < (i % channelCount) * rowCount + rowCount := by omega
          _ = (i % channelCount + 1) * rowCount := by ring
          _ ≤ channelCount * rowCount := Nat.mul_le_mul_right _ (by omega)
      have hgi : i < src.length := by rw [hlen]; exact hi
      calc (SlimTransposeTransformer.planarToInterleaved α rowCount channelCount
              (SlimTransposeTransformer.TypedApply α rowCount channelCount src))[i]
          = (SlimTransposeTransformer.TypedApply α rowCount channelCount src).getD
              ((i % channelCount) * rowCount + i / channelCount) default := by
            simp [SlimTransposeTransformer.planarToInterleaved]
        _ = src.getD
              ((((i % channelCount) * rowCount + i / channelCount) % rowCount) *
                  channelCount +
                ((i % channelCount) * rowCount + i / channelCount) / rowCount)
              default := by
            rw [SlimTransposeTransformer.TypedApply, rangeMap_getD _ _ _ hidx]
        _ = src.getD ((i / channelCount) * channelCount + i % channelCount)
              default := by
            rw [(encode_mod_div hdivR).1, (encode_mod_div hdivR).2]
        _ = src.getD i default := by
            rw [Nat.mul_comm (i / channelCount) channelCount,
              Nat.div_add_mod i channelCount]
        _ = src[i] := List.getD_eq_getElem src default hgi

/-- Witness for C5 on a `2 × 3` interleaved buffer of integers. -/
theorem transpose_mapping_and_roundtrip_witness :
    (∀ p c, p < 2 → c < 3 →
      (SlimTransposeTransformer.TypedApply Int 2 3
          ([10, 11, 12, 20, 21, 22] : List Int)).getD (c * 2 + p) default =
        ([10, 11, 12, 20, 21, 22] : List Int).getD (p * 3 + c) default) ∧
    SlimTransposeTransformer.planarToInterleaved Int 2 3
        (SlimTransposeTransformer.TypedApply Int 2 3
          ([10, 11, 12, 20, 21, 22] : List Int)) =
      [10, 11, 12, 20, 21, 22] :=
  transpose_mapping_and_roundtrip Int 2 3 [10, 11, 12, 20, 21, 22] rfl

/-- C7: construction of the crop transformer fails with a configuration
error — it never silently defaults — whenever a crop-ratio bound lies
outside `(0, 1]`, or the minimum exceeds the maximum, or the crop
strategy name (nonempty and matching no known name case-insensitively)
is unrecognized, or the jitter mode name likewise. -/
theorem crop_construction_validation (c : RawCropConfig)
    (h :
      (¬(0 < c.cropRatioMin ∧ c.cropRatioMin ≤ 1) ∨
       ¬(0 < c.cropRatioMax ∧ c.cropRatioMax ≤ 1) ∨
       c.cropRatioMin > c.cropRatioMax) ∨
      (c.cropType.isEmpty = false ∧
       AreEqualIgnoreCase c.cropType "center" = false ∧
       AreEqualIgnoreCase c.cropType "random" = false ∧
       AreEqualIgnoreCase c.cropType "multiview10" = false) ∨
      (c.jitterType.isEmpty = false ∧
       AreEqualIgnoreCase c.jitterType "none" = false ∧
       AreEqualIgnoreCase c.jitterType "uniratio" = false ∧
       AreEqualIgnoreCase c.jitterType "unilength" = false ∧
       AreEqualIgnoreCase c.jitterType "uniarea" = false)) :
    ∃ e, SlimCropTransformer.construct c = Except.error e := by
  rcases h with hr | hct | hjt
  · rcases hpc : ParseCropType c.cropType with e | ct
    · exact ⟨e, by unfold SlimCropTransformer.construct; rw [hpc]⟩
    · refine ⟨"Invalid cropRatio value, must be > 0 and <= 1. cropMin must <= cropMax", ?_⟩
      unfold SlimCropTransformer.construct
      rw [hpc]
      dsimp only
      rw [if_pos hr]
  · have hpc : ParseCropType c.cropType =
        Except.error ("Invalid crop type: " ++ c.cropType ++ ".") := by
      simp [ParseCropType, hct.1, hct.2.1, hct.2.2.1, hct.2.2.2]
    exact ⟨_, by unfold SlimCropTransformer.construct; rw [hpc]⟩
  · rcases hpc : ParseCropType c.cropType with e | ct
    · exact ⟨e, by unfold SlimCropTransformer.construct; rw [hpc]⟩
    · have hpj : ParseJitterType c.jitterType =
          Except.error ("Invalid jitter type: " ++ c.jitterType ++ ".") := by
        simp [ParseJitterType, hjt.1, hjt.2.1, hjt.2.2.1, hjt.2.2.2.1, hjt.2.2.2.2]
      by_cases hratio :
          (¬(0 < c.cropRatioMin ∧ c.cropRatioMin ≤ 1) ∨
           ¬(0 < c.cropRatioMax ∧ c.cropRatioMax ≤ 1) ∨
           c.cropRatioMin > c.cropRatioMax)
      · refine ⟨"Invalid cropRatio value, must be > 0 and <= 1. cropMin must <= cropMax", ?_⟩
        unfold SlimCropTransformer.construct
        rw [hpc]
        dsimp only
        rw [if_pos hratio]
      · refine ⟨"Invalid jitter type: " ++ c.jitterType ++ ".", ?_⟩
        unfold SlimCropTransformer.construct
        rw [hpc]
        dsimp only
        rw [if_neg hratio, hpj]

/-- Witness for C7: a crop ratio of `0` fails construction. -/
theorem crop_construction_validation_witness :
    ∃ e, SlimCropTransformer.construct ⟨"", 0, 0, "", Option.none⟩ =
      Except.error e :=
  crop_construction_validation ⟨"", 0, 0, "", Option.none⟩
    (Or.inl (Or.inl (fun hcontra => absurd hcontra.1 (lt_irrefl 0))))

/-- C10: an empty crop-strategy string parses to `Center` and an empty
jitter-mode string parses to `None`; construction treats the empty
string as a valid default, not an unrecognized name. -/
theorem empty_strings_parse_to_defaults :
    ParseCropType "" = Except.ok CropType.Center ∧
    ParseJitterType "" = Except.ok RatioJitterType.None := by
  constructor <;> rfl

/-- C9: the center-crop offsets are exactly `(ccol - size) / 2` and
`(crow - size) / 2` with integer division, and on the deterministic
example `cols = 100`, `rows = 80`, `ratio = 1/2` the result is
`size = 40`, `xOff = 30`, `yOff = 20`. -/
theorem center_crop_offsets (crow ccol : Int) (ratio : ℚ) (rng : RNG)
    (hr : 0 < crow) (hc : 0 < ccol) (h0 : 0 < ratio) (h1 : ratio ≤ 1) :
    (GetCropRect CropType.Center 0 crow ccol ratio rng).1 =
      ⟨(ccol - specCropSize crow ccol ratio) / 2,
       (crow - specCropSize crow ccol ratio) / 2,
       specCropSize crow ccol ratio, specCropSize crow ccol ratio⟩ ∧
    (GetCropRect CropType.Center 0 80 100 (1/2) rngZero).1 = ⟨30, 20, 40, 40⟩ := by
  constructor
  · simp only [GetCropRect, cropSize_eq_spec hr hc h0]
  · have h48 : ((min (80 : Int) 100 : Int) : ℚ) * (1 / 2) = 40 := by norm_num
    simp only [GetCropRect, h48, cppIntTrunc]
    norm_num

/-- Witness for C9 at `crow = ccol = 1`, `ratio = 1`. -/
theorem center_crop_offsets_witness :
    (GetCropRect CropType.Center 0 1 1 1 rngZero).1 =
      ⟨(1 - specCropSize 1 1 1) / 2, (1 - specCropSize 1 1 1) / 2,
       specCropSize 1 1 1, specCropSize 1 1 1⟩ ∧
    (GetCropRect CropType.Center 0 80 100 (1/2) rngZero).1 = ⟨30, 20, 40, 40⟩ :=
  center_crop_offsets 1 1 1 rngZero zero_lt_one zero_lt_one zero_lt_one (le_refl 1)

/-- C8: selecting one of the recognized-but-reserved jitter modes
(`UniLength` or `UniArea`) makes `Apply` fail with the not-implemented
error; the `None` and `UniRatio` modes always produce a result. -/
theorem jitter_reserved_modes_not_implemented (cfg : CropConfig) (id : Nat)
    (crow ccol : Int) (rng : RNG) :
    ((cfg.jitterType = RatioJitterType.UniLength ∨
      cfg.jitterType = RatioJitterType.UniArea) →
      SlimCropTransformer.Apply cfg id crow ccol rng =
        Except.error "Jitter type currently not implemented.") ∧
    ((cfg.jitterType = RatioJitterType.None ∨
      cfg.jitterType = RatioJitterType.UniRatio) →
      ∃ out, SlimCropTransformer.Apply cfg id crow ccol rng = Except.ok out) := by
  constructor
  · rintro (h | h) <;> simp [SlimCropTransformer.Apply, h]
  · rintro (h | h) <;>
      simp only [SlimCropTransformer.Apply, SlimCropTransformer.Apply.rest, h] <;>
      first
        | exact ⟨_, rfl⟩
        | (split <;> exact ⟨_, rfl⟩)

/-- Witness for C8: `UniLength` fails, `None` succeeds. -/
theorem jitter_reserved_modes_not_implemented_witness :
    SlimCropTransformer.Apply ⟨CropType.Center, 1, 1, RatioJitterType.UniLength, false⟩
        0 8 8 rngZero = Except.error "Jitter type currently not implemented." ∧
    ∃ out, SlimCropTransformer.Apply ⟨CropType.Center, 1, 1, RatioJitterType.None, false⟩
        0 8 8 rngZero = Except.ok out :=
  ⟨(jitter_reserved_modes_not_implemented
      ⟨CropType.Center, 1, 1, RatioJitterType.UniLength, false⟩ 0 8 8 rngZero).1 (Or.inl rfl),
   (jitter_reserved_modes_not_implemented
      ⟨CropType.Center, 1, 1, RatioJitterType.None, false⟩ 0 8 8 rngZero).2 (Or.inl rfl)⟩

end CNTKSlim
